import Mathlib

/-!
# Verification of the pharma-backend pricing and quoting engine

Shallow embedding of `backend/app/services/pricing.py` and
`backend/app/services/quote.py`. Monetary and percentage values are
modelled as rationals (`ℚ`); the relational store is modelled as lists of
rows; the optional (nullable) SQL columns are `Option` values, and Python
truthiness on such values (`if x:` treats both `None` and `0` as false)
is modelled explicitly. Fields of rows that no claim touches (names,
free-text notes, timestamps, the random quote-number suffix) are elided.
-/

namespace Pharma

/-- Python truthiness of an optional numeric value: `None` and `0` are falsy. -/
def qTruthy : Option ℚ → Bool
  | none => false
  | some x => x != 0

/-- Python truthiness of an optional integer value: `None` and `0` are falsy. -/
def natTruthy : Option Nat → Bool
  | none => false
  | some n => n != 0

/-- Python `x or 0` on an optional numeric value. -/
def orZero : Option ℚ → ℚ
  | none => 0
  | some x => x

/-- A row of the `brands` table (columns used by the pricing/quoting core). -/
structure Brand where
  id : Nat
  userId : Nat
  costPrice : ℚ
  mrp : ℚ
  defaultMargin : Option ℚ
  isNppaControlled : Bool
  nppaMarginLimit : Option ℚ
  isActive : Bool
deriving Repr, DecidableEq

/-- A row of the `customer_types` table. -/
structure CustomerType where
  id : Nat
  userId : Nat
  defaultMargin : Option ℚ
deriving Repr, DecidableEq

/-- A row of the `pricing_rules` table. Validity dates are modelled as
integers compared against a `today` parameter. -/
structure PricingRule where
  userId : Nat
  brandId : Nat
  customerTypeId : Option Nat
  marginPercentage : Option ℚ
  sellPrice : Option ℚ
  volumeDiscount : Option ℚ
  minQuantity : Option Nat
  maxQuantity : Option Nat
  isActive : Bool
  validFrom : Option Int
  validUntil : Option Int
deriving Repr, DecidableEq

/-- Quote status enum from `backend/app/schemas/quote.py` (`QuoteStatus`). -/
inductive QuoteStatus where
  | draft
  | sent
  | viewed
  | accepted
  | rejected
  | expired
deriving Repr, DecidableEq

/-- A row of the `quotes` table (columns the claims touch). -/
structure QuoteRow where
  id : Nat
  userId : Nat
  status : QuoteStatus
  totalAmount : ℚ
  totalMargin : ℚ
deriving Repr, DecidableEq

/-- A row of the `quote_line_items` table. -/
structure LineItemRow where
  quoteId : Nat
  brandId : Nat
  quantity : Nat
  unitPrice : ℚ
  marginPercentage : ℚ
  discount : ℚ
  lineTotal : ℚ
  marginEarned : ℚ
deriving Repr, DecidableEq

/-- The relational store: one list of rows per table. -/
structure DB where
  brands : List Brand
  customerTypes : List CustomerType
  pricingRules : List PricingRule
  quotes : List QuoteRow
  lineItems : List LineItemRow
deriving Repr, DecidableEq

/-- Service-level error kinds: `ValueError("... not found")` surfaces as
`notFound`, `ValueError("Can only delete draft quotes")` as `invalidState`,
and a generic re-raised `Exception` as `internalError`. -/
inductive SvcError where
  | notFound
  | invalidState
  | internalError
deriving Repr, DecidableEq

/-- `SELECT ... FROM brands WHERE id = :brand_id AND user_id = :user_id AND is_active = true`. -/
def findBrandActive (db : DB) (userId brandId : Nat) : Option Brand :=
  db.brands.find? (fun b => b.id == brandId && b.userId == userId && b.isActive)

/-- `SELECT default_margin FROM brands WHERE id = :brand_id AND user_id = :user_id`
(the default-margin re-query in `calculate_price` has no `is_active` filter). -/
def findBrand (db : DB) (userId brandId : Nat) : Option Brand :=
  db.brands.find? (fun b => b.id == brandId && b.userId == userId)

/-- `SELECT default_margin FROM customer_types WHERE id = :customer_type_id AND user_id = :user_id`. -/
def findCustomerType (db : DB) (userId ctId : Nat) : Option CustomerType :=
  db.customerTypes.find? (fun ct => ct.id == ctId && ct.userId == userId)

/-- The pricing-rule lookup of `calculate_price` (pricing.py lines 56-74):
first active rule for `(owner, brand, customerType)` whose validity window
contains today, `LIMIT 1`/`fetchone` modelled as `List.find?`. A rule whose
`customer_type_id` is NULL never matches the SQL equality. -/
def findRule (db : DB) (today : Int) (userId brandId ctId : Nat) : Option PricingRule :=
  db.pricingRules.find? (fun r =>
    r.userId == userId && r.brandId == brandId &&
    (match r.customerTypeId with
     | some c => c == ctId
     | none => false) &&
    r.isActive &&
    (match r.validFrom with
     | none => true
     | some d => decide (d ≤ today)) &&
    (match r.validUntil with
     | none => true
     | some d => decide (today ≤ d)))

/-- The compliance message attached to a price result (modelling the
`nppa_message` strings structurally). -/
inductive NppaMessage where
  | compliant
  | exceedsLimit (margin limit : ℚ)
deriving Repr, DecidableEq

/-- The dictionary returned by `PricingEngineService.calculate_price`. -/
structure PriceResult where
  brandId : Nat
  costPrice : ℚ
  mrp : ℚ
  unitPrice : ℚ
  quantity : Nat
  marginPercentage : ℚ
  marginPerUnit : ℚ
  totalMargin : ℚ
  totalAmount : ℚ
  volumeDiscount : ℚ
  nppaControlled : Bool
  nppaCompliant : Bool
  nppaMessage : NppaMessage
deriving Repr, DecidableEq

/-- The margin recomputation at pricing.py line 132:
`((sell_price - cost_price) / cost_price * 100) if cost_price > 0 else 0`. -/
def resolverMarginFormula (sellPrice costPrice : ℚ) : ℚ :=
  if costPrice > 0 then (sellPrice - costPrice) / costPrice * 100 else 0

/-- The margin computation at pricing.py line 195:
`((proposed_price - cost_price) / cost_price * 100) if cost_price > 0 else 0`. -/
def complianceMarginFormula (proposedPrice costPrice : ℚ) : ℚ :=
  if costPrice > 0 then (proposedPrice - costPrice) / costPrice * 100 else 0

/-- The base (pre-volume-discount) sell price and the resolved volume
discount, pricing.py lines 76-122. Returns `(sellPrice, volumeDiscount)`.
When a rule matched: a truthy `sell_price` column is authoritative, else
the rule margin prices off cost; the volume discount applies when the
quantity lies in `[min, max]` (both truthy) or is `≥ min` (only min truthy).
When no rule matched: the customer-type default margin is fetched first,
then the brand default-margin re-query overwrites it whenever the brand
margin is truthy (`if brand_margin_row and brand_margin_row[0]:`). -/
def baseSellPrice (db : DB) (userId brandId : Nat) (customerTypeId : Option Nat)
    (quantity : Nat) (today : Int) (costPrice : ℚ) : ℚ × ℚ :=
  let rule : Option PricingRule :=
    if natTruthy customerTypeId then
      findRule db today userId brandId ((customerTypeId).getD 0)
    else none
  match rule with
  | some r =>
    let sp :=
      if qTruthy r.sellPrice then (r.sellPrice).getD 0
      else costPrice * (1 + orZero r.marginPercentage / 100)
    let vd :=
      if natTruthy r.minQuantity && natTruthy r.maxQuantity then
        if (r.minQuantity).getD 0 ≤ quantity ∧ quantity ≤ (r.maxQuantity).getD 0 then
          orZero r.volumeDiscount
        else 0
      else if natTruthy r.minQuantity then
        if (r.minQuantity).getD 0 ≤ quantity then orZero r.volumeDiscount else 0
      else 0
    (sp, vd)
  | none =>
    let ctMargin : ℚ :=
      if natTruthy customerTypeId then
        match findCustomerType db userId ((customerTypeId).getD 0) with
        | some ct => orZero ct.defaultMargin
        | none => 0
      else 0
    let margin : ℚ :=
      match findBrand db userId brandId with
      | some b2 => if qTruthy b2.defaultMargin then (b2.defaultMargin).getD 0 else ctMargin
      | none => ctMargin
    (costPrice * (1 + margin / 100), 0)

/-- The computation of `calculate_price` after the brand row was fetched,
pricing.py lines 51-161: base price, volume discount, unconditional MRP
cap, margin recomputation, advisory NPPA annotation, totals. -/
def priceFromBrand (db : DB) (userId brandId : Nat) (customerTypeId : Option Nat)
    (quantity : Nat) (today : Int) (b : Brand) : PriceResult :=
  let bd := baseSellPrice db userId brandId customerTypeId quantity today b.costPrice
  let priced := if bd.2 > 0 then bd.1 * (1 - bd.2 / 100) else bd.1
  let sellPrice := min priced b.mrp
  let finalMargin := resolverMarginFormula sellPrice b.costPrice
  let nonCompliant :=
    b.isNppaControlled && qTruthy b.nppaMarginLimit &&
      decide (finalMargin > (b.nppaMarginLimit).getD 0)
  { brandId := brandId
    costPrice := b.costPrice
    mrp := b.mrp
    unitPrice := sellPrice
    quantity := quantity
    marginPercentage := finalMargin
    marginPerUnit := sellPrice - b.costPrice
    totalMargin := (sellPrice - b.costPrice) * quantity
    totalAmount := sellPrice * quantity
    volumeDiscount := bd.2
    nppaControlled := b.isNppaControlled
    nppaCompliant := !nonCompliant
    nppaMessage :=
      if nonCompliant then
        NppaMessage.exceedsLimit finalMargin ((b.nppaMarginLimit).getD 0)
      else NppaMessage.compliant }

/-- `PricingEngineService.calculate_price` (pricing.py lines 17-167):
fetch the active brand for the owner (`ValueError("Brand not found")`,
i.e. `notFound`, when absent), then compute the price result. -/
def calculate_price (userId brandId : Nat) (customerTypeId : Option Nat)
    (quantity : Nat) (db : DB) (today : Int) : Except SvcError PriceResult :=
  match findBrandActive db userId brandId with
  | none => Except.error SvcError.notFound
  | some b => Except.ok (priceFromBrand db userId brandId customerTypeId quantity today b)

/-- The compliance message of `check_nppa_compliance`, modelled structurally:
`"Price is NPPA compliant"`, `"NPPA controlled but no margin limit set"`, or
`"Margin ...% exceeds NPPA limit of ...%"`. -/
inductive ComplianceMessage where
  | compliant
  | noLimitSet
  | exceedsLimit (margin limit : ℚ)
deriving Repr, DecidableEq

/-- The dictionary returned by `PricingEngineService.check_nppa_compliance`. -/
structure ComplianceResult where
  brandId : Nat
  proposedPrice : ℚ
  costPrice : ℚ
  marginPercentage : ℚ
  isNppaControlled : Bool
  nppaLimit : Option ℚ
  isCompliant : Bool
  message : ComplianceMessage
deriving Repr, DecidableEq

/-- The computation of `check_nppa_compliance` after the brand row was
fetched, pricing.py lines 192-226. The early return for a falsy margin
limit (`if not nppa_margin_limit`) reports compliant with the
limit-not-set message; otherwise non-compliance is exactly
`margin > limit`. The reported `nppa_limit` is `None` when falsy. -/
def complianceFromBrand (brandId : Nat) (proposedPrice : ℚ) (b : Brand) : ComplianceResult :=
  let marginPct := complianceMarginFormula proposedPrice b.costPrice
  if b.isNppaControlled then
    if !qTruthy b.nppaMarginLimit then
      { brandId := brandId
        proposedPrice := proposedPrice
        costPrice := b.costPrice
        marginPercentage := marginPct
        isNppaControlled := b.isNppaControlled
        nppaLimit := none
        isCompliant := true
        message := ComplianceMessage.noLimitSet }
    else
      let lim := (b.nppaMarginLimit).getD 0
      if marginPct > lim then
        { brandId := brandId
          proposedPrice := proposedPrice
          costPrice := b.costPrice
          marginPercentage := marginPct
          isNppaControlled := b.isNppaControlled
          nppaLimit := some lim
          isCompliant := false
          message := ComplianceMessage.exceedsLimit marginPct lim }
      else
        { brandId := brandId
          proposedPrice := proposedPrice
          costPrice := b.costPrice
          marginPercentage := marginPct
          isNppaControlled := b.isNppaControlled
          nppaLimit := some lim
          isCompliant := true
          message := ComplianceMessage.compliant }
  else
    { brandId := brandId
      proposedPrice := proposedPrice
      costPrice := b.costPrice
      marginPercentage := marginPct
      isNppaControlled := b.isNppaControlled
      nppaLimit := if qTruthy b.nppaMarginLimit then some ((b.nppaMarginLimit).getD 0) else none
      isCompliant := true
      message := ComplianceMessage.compliant }

/-- `PricingEngineService.check_nppa_compliance` (pricing.py lines 169-232). -/
def check_nppa_compliance (brandId : Nat) (proposedPrice : ℚ) (userId : Nat)
    (db : DB) : Except SvcError ComplianceResult :=
  match findBrandActive db userId brandId with
  | none => Except.error SvcError.notFound
  | some b => Except.ok (complianceFromBrand brandId proposedPrice b)

/-- One element of the `line_items` list passed to `create_quote`
(`QuoteLineItemCreate` after `item.dict()`): optional keys are `Option`,
and `item.get(...)` truthiness is applied where the code applies it. -/
structure LineItemRequest where
  brandId : Nat
  quantity : Nat
  unitPrice : Option ℚ
  marginPercentage : Option ℚ
  discount : Option ℚ
deriving Repr, DecidableEq

/-- One entry of `processed_items` in `create_quote`. -/
structure ProcessedItem where
  brandId : Nat
  quantity : Nat
  unitPrice : ℚ
  marginPercentage : ℚ
  discount : ℚ
  lineTotal : ℚ
  marginEarned : ℚ
deriving Repr, DecidableEq

/-- The per-line pricing of `create_quote`, quote.py lines 50-98: fetch the
active brand (`ValueError(f"Brand ... not found")` when absent), take a
truthy `unit_price` verbatim, else price a truthy `margin_percentage` off
cost capped at MRP, else default to MRP; apply the discount only when
`item.get("discount", 0) > 0`; then line totals and the recomputed margin. -/
def processLineItem (userId : Nat) (db : DB) (item : LineItemRequest) :
    Except SvcError ProcessedItem :=
  match findBrandActive db userId item.brandId with
  | none => Except.error SvcError.notFound
  | some b =>
    let up0 :=
      if qTruthy item.unitPrice then (item.unitPrice).getD 0
      else if qTruthy item.marginPercentage then
        min (b.costPrice * (1 + (item.marginPercentage).getD 0 / 100)) b.mrp
      else b.mrp
    let disc := (item.discount).getD 0
    let up := if disc > 0 then up0 * (1 - disc / 100) else up0
    let marginPerUnit := up - b.costPrice
    Except.ok
      { brandId := item.brandId
        quantity := item.quantity
        unitPrice := up
        marginPercentage := if b.costPrice > 0 then marginPerUnit / b.costPrice * 100 else 0
        discount := disc
        lineTotal := up * item.quantity
        marginEarned := marginPerUnit * item.quantity }

/-- The validation loop of `create_quote` over all line items: the first
missing/inactive brand aborts the whole operation. -/
def processLineItems (userId : Nat) (db : DB) :
    List LineItemRequest → Except SvcError (List ProcessedItem)
  | [] => Except.ok []
  | item :: rest =>
    match processLineItem userId db item with
    | Except.error e => Except.error e
    | Except.ok p =>
      match processLineItems userId db rest with
      | Except.error e => Except.error e
      | Except.ok ps => Except.ok (p :: ps)

/-- The `INSERT INTO quote_line_items` row built from a processed item. -/
def mkLineItemRow (quoteId : Nat) (p : ProcessedItem) : LineItemRow :=
  { quoteId := quoteId
    brandId := p.brandId
    quantity := p.quantity
    unitPrice := p.unitPrice
    marginPercentage := p.marginPercentage
    discount := p.discount
    lineTotal := p.lineTotal
    marginEarned := p.marginEarned }

/-- The quote view assembled by `QuoteService.get_quote` (quote.py lines
172-241): the quote row plus its line items; `total_items` is the number
of line items read back. -/
structure QuoteView where
  id : Nat
  userId : Nat
  status : QuoteStatus
  totalAmount : ℚ
  totalMargin : ℚ
  totalItems : Nat
  lineItems : List LineItemRow
deriving Repr, DecidableEq

/-- `SELECT ... FROM quotes WHERE id = :quote_id AND user_id = :user_id`. -/
def findQuote (db : DB) (userId quoteId : Nat) : Option QuoteRow :=
  db.quotes.find? (fun q => q.id == quoteId && q.userId == userId)

/-- `QuoteService.get_quote`: `ValueError("Quote not found")` when the quote
is absent for the owner, else the quote with its line items
(`SELECT ... FROM quote_line_items WHERE quote_id = :quote_id`). -/
def get_quote (userId quoteId : Nat) (db : DB) : Except SvcError QuoteView :=
  match findQuote db userId quoteId with
  | none => Except.error SvcError.notFound
  | some q =>
    let items := db.lineItems.filter (fun li => li.quoteId == quoteId)
    Except.ok
      { id := q.id
        userId := userId
        status := q.status
        totalAmount := q.totalAmount
        totalMargin := q.totalMargin
        totalItems := items.length
        lineItems := items }

/-- The line-item insertion loop of `create_quote` (quote.py lines 138-158),
with an injected storage fault: `failAt = some k` makes the k-th `INSERT`
raise. Returns the rows the transaction would hold, or the fault. -/
def insertLineItemRows (quoteId : Nat) :
    List ProcessedItem → Option Nat → Except Unit (List LineItemRow)
  | [], _ => Except.ok []
  | _ :: _, some 0 => Except.error ()
  | p :: ps, failAt =>
    match insertLineItemRows quoteId ps (failAt.map (fun k => k - 1)) with
    | Except.error e => Except.error e
    | Except.ok rows => Except.ok (mkLineItemRow quoteId p :: rows)

/-- `QuoteService.create_quote` (quote.py lines 26-170), as a transition on
the committed store. Its commit structure is modelled faithfully:

1. line items are validated and priced (reads only); a missing/inactive
   brand raises `ValueError` before anything is written;
2. the quote row is inserted and `db.commit()` (line 128) makes it durable;
   `newQuoteId` is the storage-assigned primary key;
3. the line-item rows are inserted and committed (line 160); if an insert
   raises (injected by `failAt`), the `except` handler's `db.rollback()`
   restores the state of the *last commit* — which already contains the
   quote row — and a generic `Exception` (`internalError`) is raised;
4. on success the created quote is read back via `get_quote`.

Returns the committed store alongside the result. -/
def create_quote (userId : Nat) (line_items : List LineItemRequest)
    (newQuoteId : Nat) (failAt : Option Nat) (db : DB) :
    DB × Except SvcError QuoteView :=
  match processLineItems userId db line_items with
  | Except.error e => (db, Except.error e)
  | Except.ok processed =>
    let totalAmount := (processed.map ProcessedItem.lineTotal).sum
    let totalMargin := (processed.map ProcessedItem.marginEarned).sum
    let quoteRow : QuoteRow :=
      { id := newQuoteId
        userId := userId
        status := QuoteStatus.draft
        totalAmount := totalAmount
        totalMargin := totalMargin }
    let dbAfterQuote : DB := { db with quotes := db.quotes ++ [quoteRow] }
    match insertLineItemRows newQuoteId processed failAt with
    | Except.error _ => (dbAfterQuote, Except.error SvcError.internalError)
    | Except.ok rows =>
      let dbFinal : DB := { dbAfterQuote with lineItems := dbAfterQuote.lineItems ++ rows }
      (dbFinal, get_quote userId newQuoteId dbFinal)

/-- `QuoteService.update_quote_status` (quote.py lines 319-342): the
`UPDATE ... WHERE id = :quote_id AND user_id = :user_id` touches only the
matching rows and is committed; the result is read back via `get_quote`.
Any exception from the read-back — including the `ValueError("Quote not
found")` — is caught by the bare `except Exception` handler (there is no
`except ValueError: raise` arm in this method) and re-raised as the opaque
`Exception("Failed to update quote")`, i.e. `internalError`. -/
def update_quote_status (userId quoteId : Nat) (status : QuoteStatus) (db : DB) :
    DB × Except SvcError QuoteView :=
  let db' : DB :=
    { db with
      quotes := db.quotes.map (fun q =>
        if q.id == quoteId && q.userId == userId then { q with status := status } else q) }
  match get_quote userId quoteId db' with
  | Except.ok v => (db', Except.ok v)
  | Except.error _ => (db', Except.error SvcError.internalError)

/-- `QuoteService.delete_quote` (quote.py lines 344-380): `notFound` when
the quote is absent for the owner; `invalidState`
(`ValueError("Can only delete draft quotes")`) when its status is not
`draft`, with nothing written; otherwise the line items
(`DELETE ... WHERE quote_id = :quote_id`) and the quote row are deleted in
one transaction and committed together. -/
def delete_quote (userId quoteId : Nat) (db : DB) : DB × Except SvcError Bool :=
  match findQuote db userId quoteId with
  | none => (db, Except.error SvcError.notFound)
  | some q =>
    if q.status ≠ QuoteStatus.draft then (db, Except.error SvcError.invalidState)
    else
      ({ db with
         quotes := db.quotes.filter (fun q2 => !(q2.id == quoteId && q2.userId == userId))
         lineItems := db.lineItems.filter (fun li => !(li.quoteId == quoteId)) },
       Except.ok true)

/-- The claim's per-line pre-discount/discount pricing policy, written from
the spec's words for comparison with `processLineItem`: a supplied
`unitPrice` is used verbatim; else a supplied `marginPercent` (zero
included) prices off cost capped at MRP; else MRP; the discount
(default 0) is applied multiplicatively. -/
def claimedUnitPrice (costPrice mrp : ℚ) (item : LineItemRequest) : ℚ :=
  let base :=
    match item.unitPrice with
    | some up => up
    | none =>
      match item.marginPercentage with
      | some m => min (costPrice * (1 + m / 100)) mrp
      | none => mrp
  base * (1 - (item.discount).getD 0 / 100)

/-- The spec's running example brand: cost price 30, MRP 35, no brand
default margin, not NPPA controlled. -/
def exBrand : Brand :=
  { id := 1, userId := 1, costPrice := 30, mrp := 35, defaultMargin := none,
    isNppaControlled := false, nppaMarginLimit := none, isActive := true }

/-- Example store: the example brand plus a customer type with default
margin 15. -/
def exdb : DB :=
  { brands := [exBrand]
    customerTypes := [{ id := 2, userId := 1, defaultMargin := some 15 }]
    pricingRules := []
    quotes := []
    lineItems := [] }

/-- Store exhibiting the margin-fallback divergence: the customer type
(id 2) has default margin 15, and the brand also has default margin 20. -/
def c2db : DB :=
  { brands := [{ id := 1, userId := 1, costPrice := 100, mrp := 1000,
                 defaultMargin := some 20, isNppaControlled := false,
                 nppaMarginLimit := none, isActive := true }]
    customerTypes := [{ id := 2, userId := 1, defaultMargin := some 15 }]
    pricingRules := []
    quotes := []
    lineItems := [] }

/-- The spec's NPPA test brand: cost price 20, NPPA controlled with margin
limit 10. -/
def c7Brand : Brand :=
  { id := 1, userId := 1, costPrice := 20, mrp := 100, defaultMargin := none,
    isNppaControlled := true, nppaMarginLimit := some 10, isActive := true }

/-- Store holding only the NPPA test brand. -/
def c7db : DB :=
  { brands := [c7Brand], customerTypes := [], pricingRules := [],
    quotes := [], lineItems := [] }

/-- An NPPA-controlled brand whose configured margin limit is exactly 0. -/
def zeroLimitBrand : Brand :=
  { id := 1, userId := 1, costPrice := 20, mrp := 100, defaultMargin := none,
    isNppaControlled := true, nppaMarginLimit := some 0, isActive := true }

/-- Store holding only the zero-limit brand. -/
def zeroLimitDb : DB :=
  { brands := [zeroLimitBrand], customerTypes := [], pricingRules := [],
    quotes := [], lineItems := [] }

/-- A store with one draft quote (id 3) and one sent quote (id 4), each
with one line item. -/
def quoteDb : DB :=
  { brands := []
    customerTypes := []
    pricingRules := []
    quotes := [{ id := 3, userId := 1, status := QuoteStatus.draft,
                 totalAmount := 50, totalMargin := 5 },
               { id := 4, userId := 1, status := QuoteStatus.sent,
                 totalAmount := 70, totalMargin := 7 }]
    lineItems := [{ quoteId := 3, brandId := 1, quantity := 1, unitPrice := 50,
                    marginPercentage := 10, discount := 0, lineTotal := 50,
                    marginEarned := 5 },
                  { quoteId := 4, brandId := 1, quantity := 1, unitPrice := 70,
                    marginPercentage := 10, discount := 0, lineTotal := 70,
                    marginEarned := 7 }] }

/-- A line-item request supplying only a zero margin percent (a value the
request schema admits: `margin_percentage: ... ge=0`). -/
def zeroMarginItem : LineItemRequest :=
  { brandId := 1, quantity := 1, unitPrice := none,
    marginPercentage := some 0, discount := none }

/-- A line-item request supplying an explicit unit price 40 and a 10%
discount. -/
def pricedItem : LineItemRequest :=
  { brandId := 1, quantity := 1, unitPrice := some 40,
    marginPercentage := none, discount := some 10 }

/-- A line-item request with no explicit price, margin, or discount. -/
def plainItem : LineItemRequest :=
  { brandId := 1, quantity := 2, unitPrice := none,
    marginPercentage := none, discount := none }

/-! ## Theorems -/

theorem priceFromBrand_unitPrice_le_mrp (db : DB) (userId brandId : Nat)
    (customerTypeId : Option Nat) (quantity : Nat) (today : Int) (b : Brand) :
    (priceFromBrand db userId brandId customerTypeId quantity today b).unitPrice ≤ b.mrp :=
  min_le_right _ _

theorem priceFromBrand_mrp_eq (db : DB) (userId brandId : Nat)
    (customerTypeId : Option Nat) (quantity : Nat) (today : Int) (b : Brand) :
    (priceFromBrand db userId brandId customerTypeId quantity today b).mrp = b.mrp :=
  rfl

/-- C1: for every owner, brand, optional customer type, quantity and store
contents (any configuration of rules and volume discounts), a successful
`calculate_price` returns a unit sell price that is at most the brand's
MRP — the `min(price, MRP)` cap is unconditional. -/
theorem calculate_price_capped_at_mrp (userId brandId : Nat)
    (customerTypeId : Option Nat) (quantity : Nat) (db : DB) (today : Int)
    (r : PriceResult)
    (h : calculate_price userId brandId customerTypeId quantity db today = Except.ok r) :
    r.unitPrice ≤ r.mrp ∧
    ∀ b : Brand, findBrandActive db userId brandId = some b → r.unitPrice ≤ b.mrp := by
  unfold calculate_price at h
  cases hfb : findBrandActive db userId brandId with
  | none => rw [hfb] at h; cases h
  | some b =>
    rw [hfb] at h
    injection h with h
    subst h
    refine ⟨priceFromBrand_unitPrice_le_mrp db userId brandId customerTypeId quantity today b, ?_⟩
    intro b2 hb2
    injection hb2 with hb2
    rw [← hb2]
    exact priceFromBrand_unitPrice_le_mrp db userId brandId customerTypeId quantity today b

/-- Witness for C1 at the spec's example store. -/
theorem calculate_price_capped_at_mrp_witness :
    calculate_price 1 1 (some 2) 1 exdb 0 =
      Except.ok (priceFromBrand exdb 1 1 (some 2) 1 0 exBrand) ∧
    (priceFromBrand exdb 1 1 (some 2) 1 0 exBrand).unitPrice ≤
      (priceFromBrand exdb 1 1 (some 2) 1 0 exBrand).mrp :=
  ⟨rfl, (calculate_price_capped_at_mrp 1 1 (some 2) 1 exdb 0 _ rfl).1⟩

/-- C4: the realized margin percent recomputed inside `calculate_price`
(pricing.py line 132) and the margin percent computed by
`check_nppa_compliance` (pricing.py line 195) are the same function of
(price, costPrice): both yield `(price − costPrice)/costPrice × 100`,
with 0 when the cost price is not positive, and each service's result
field carries exactly that function of its inputs. -/
theorem margin_formulas_agree (p c : ℚ) (db : DB) (userId brandId quantity : Nat)
    (customerTypeId : Option Nat) (today : Int) (b : Brand) :
    resolverMarginFormula p c = complianceMarginFormula p c ∧
    (0 < c → resolverMarginFormula p c = (p - c) / c * 100) ∧
    (¬ 0 < c → resolverMarginFormula p c = 0) ∧
    (priceFromBrand db userId brandId customerTypeId quantity today b).marginPercentage =
      resolverMarginFormula
        (priceFromBrand db userId brandId customerTypeId quantity today b).unitPrice
        b.costPrice ∧
    (complianceFromBrand brandId p b).marginPercentage = complianceMarginFormula p b.costPrice := by
  refine ⟨rfl, fun h => ?_, fun h => ?_, rfl, ?_⟩
  · simp [resolverMarginFormula, h]
  · simp [resolverMarginFormula, h]
  · unfold complianceFromBrand
    split_ifs <;> simp [apply_ite ComplianceResult.marginPercentage]

/-- Witness for C4 at price 25, cost 20. -/
theorem margin_formulas_agree_witness :
    resolverMarginFormula 25 20 = complianceMarginFormula 25 20 ∧
    resolverMarginFormula 25 20 = (25 - 20) / 20 * 100 :=
  ⟨(margin_formulas_agree 25 20 exdb 1 1 1 none 0 exBrand).1,
   (margin_formulas_agree 25 20 exdb 1 1 1 none 0 exBrand).2.1 (by norm_num)⟩

/-- C7: for an existing active brand, `check_nppa_compliance` is always
compliant when the brand is not NPPA-controlled; compliant with the
limit-not-set message when NPPA-controlled with no limit configured;
otherwise compliant exactly when the margin is at most the limit, with the
non-compliant message carrying the computed margin and the limit. -/
theorem check_nppa_compliance_cases (brandId userId : Nat) (p : ℚ) (db : DB)
    (b : Brand) (hf : findBrandActive db userId brandId = some b) :
    check_nppa_compliance brandId p userId db = Except.ok (complianceFromBrand brandId p b) ∧
    (b.isNppaControlled = false →
      (complianceFromBrand brandId p b).isCompliant = true ∧
      (complianceFromBrand brandId p b).message = ComplianceMessage.compliant) ∧
    (b.isNppaControlled = true → b.nppaMarginLimit = none →
      (complianceFromBrand brandId p b).isCompliant = true ∧
      (complianceFromBrand brandId p b).message = ComplianceMessage.noLimitSet) ∧
    (∀ lim : ℚ, b.isNppaControlled = true → b.nppaMarginLimit = some lim → lim ≠ 0 →
      ((complianceFromBrand brandId p b).isCompliant = true ↔
        complianceMarginFormula p b.costPrice ≤ lim) ∧
      (complianceMarginFormula p b.costPrice > lim →
        (complianceFromBrand brandId p b).message =
          ComplianceMessage.exceedsLimit (complianceMarginFormula p b.costPrice) lim)) := by
  refine ⟨?_, fun hc => ?_, fun hc hl => ?_, fun lim hc hl hlz => ?_⟩
  · unfold check_nppa_compliance
    rw [hf]
  · simp [complianceFromBrand, hc]
  · simp [complianceFromBrand, hc, hl, qTruthy]
  · have ht : qTruthy (some lim) = true := by simp [qTruthy, hlz]
    constructor
    · by_cases hgt : complianceMarginFormula p b.costPrice > lim
      · simp [complianceFromBrand, hc, hl, ht, hgt, not_le.mpr hgt]
      · simp [complianceFromBrand, hc, hl, ht, hgt, not_lt.mp hgt]
    · intro hgt
      simp [complianceFromBrand, hc, hl, ht, hgt]

/-- Witness for C7 at the spec's NPPA scenario: cost 20, limit 10,
proposed price 25, margin 25% — non-compliant with the exceeded-limit
message. -/
theorem check_nppa_compliance_cases_witness :
    check_nppa_compliance 1 25 1 c7db = Except.ok (complianceFromBrand 1 25 c7Brand) ∧
    (complianceFromBrand 1 25 c7Brand).isCompliant = false ∧
    (complianceFromBrand 1 25 c7Brand).message =
      ComplianceMessage.exceedsLimit (complianceMarginFormula 25 20) 10 := by
  have h := check_nppa_compliance_cases 1 1 25 c7db c7Brand rfl
  have hm : complianceMarginFormula 25 20 > 10 := by norm_num [complianceMarginFormula]
  have h4 := h.2.2.2 10 rfl rfl (by norm_num)
  refine ⟨h.1, ?_, h4.2 hm⟩
  have := h4.1
  rw [show c7Brand.costPrice = 20 from rfl] at this
  by_cases hcpl : (complianceFromBrand 1 25 c7Brand).isCompliant = true
  · exact absurd (this.mp hcpl) (by norm_num [complianceMarginFormula])
  · simpa using hcpl

/-- C10: a configured NPPA margin limit equal to 0 is treated as absent by
both services: `calculate_price` annotates the result compliant for every
realized margin, and `check_nppa_compliance` reports compliant with the
limit-not-set message for every proposed price. -/
theorem zero_nppa_limit_always_compliant (userId brandId quantity : Nat)
    (customerTypeId : Option Nat) (p : ℚ) (db : DB) (today : Int) (b : Brand)
    (hf : findBrandActive db userId brandId = some b)
    (hc : b.isNppaControlled = true) (hl : b.nppaMarginLimit = some 0) :
    (∀ r : PriceResult,
      calculate_price userId brandId customerTypeId quantity db today = Except.ok r →
        r.nppaCompliant = true) ∧
    (∀ cr : ComplianceResult,
      check_nppa_compliance brandId p userId db = Except.ok cr →
        cr.isCompliant = true ∧ cr.message = ComplianceMessage.noLimitSet) := by
  constructor
  · intro r hr
    unfold calculate_price at hr
    rw [hf] at hr
    injection hr with hr
    subst hr
    simp [priceFromBrand, hl, qTruthy]
  · intro cr hcr
    unfold check_nppa_compliance at hcr
    rw [hf] at hcr
    injection hcr with hcr
    subst hcr
    simp [complianceFromBrand, hc, hl, qTruthy]

/-- Witness for C10 at the zero-limit brand, quantity 1, proposed price 90
(a 350% margin, still compliant). -/
theorem zero_nppa_limit_always_compliant_witness :
    (calculate_price 1 1 none 1 zeroLimitDb 0).toOption.map PriceResult.nppaCompliant =
      some true ∧
    (check_nppa_compliance 1 90 1 zeroLimitDb).toOption.map ComplianceResult.isCompliant =
      some true := by
  have h := zero_nppa_limit_always_compliant 1 1 1 none 90 zeroLimitDb 0 zeroLimitBrand
    rfl rfl rfl
  have h1 := h.1 (priceFromBrand zeroLimitDb 1 1 none 1 0 zeroLimitBrand) rfl
  have h2 := h.2 (complianceFromBrand 1 90 zeroLimitBrand) rfl
  constructor
  · rw [show calculate_price 1 1 none 1 zeroLimitDb 0 =
        Except.ok (priceFromBrand zeroLimitDb 1 1 none 1 0 zeroLimitBrand) from rfl]
    exact congrArg some h1
  · rw [show check_nppa_compliance 1 90 1 zeroLimitDb =
        Except.ok (complianceFromBrand 1 90 zeroLimitBrand) from rfl]
    exact congrArg some h2.1

/-- C2 fails on the code: with no pricing rule, a customer type (id 2,
default margin 15) given and found, and a brand default margin of 20, the
code prices with the brand margin (unit price 120 off cost 100), not the
customer type margin (which would give 115) — the brand default margin
overwrites the customer-type margin whenever it is truthy, contradicting
the code's own fallback comment. -/
theorem calculate_price_brand_margin_overrides_customer_margin :
    (calculate_price 1 1 (some 2) 1 c2db 0).toOption.map PriceResult.unitPrice = some 120 ∧
    (calculate_price 1 1 (some 2) 1 c2db 0).toOption.map PriceResult.marginPercentage =
      some 20 ∧
    (calculate_price 1 1 (some 2) 1 c2db 0).toOption.map PriceResult.unitPrice ≠
      some 115 := by
  have hcp : calculate_price 1 1 (some 2) 1 c2db 0 =
      Except.ok (priceFromBrand c2db 1 1 (some 2) 1 0
        { id := 1, userId := 1, costPrice := 100, mrp := 1000, defaultMargin := some 20,
          isNppaControlled := false, nppaMarginLimit := none, isActive := true }) := rfl
  rw [hcp]
  norm_num [priceFromBrand, baseSellPrice, findRule, findBrand, findCustomerType,
    natTruthy, qTruthy, orZero, resolverMarginFormula, c2db, Except.toOption,
    min_def]

/-- C3 fails on the code: `create_quote` commits the quote row (quote.py
line 128) before inserting any line item, so when a line-item `INSERT`
fails, the `except` handler's rollback cannot undo the committed quote.
Concretely: one valid line item over the example store, storage fault on
the first line-item insert — the call fails, yet the committed store
retains the quote row (id 7) with zero line items. -/
theorem create_quote_partial_persistence_on_line_item_failure :
    (create_quote 1 [plainItem] 7 (some 0) exdb).2 = Except.error SvcError.internalError ∧
    (create_quote 1 [plainItem] 7 (some 0) exdb).1.quotes.map QuoteRow.id = [7] ∧
    (create_quote 1 [plainItem] 7 (some 0) exdb).1.lineItems = [] :=
  ⟨rfl, rfl, rfl⟩

/-- The store used for the missing-quote update scenario: one quote
(id 5, owner 1) unrelated to the requested id 99. -/
def c9db : DB :=
  { brands := [], customerTypes := [], pricingRules := []
    quotes := [{ id := 5, userId := 1, status := QuoteStatus.draft,
                 totalAmount := 0, totalMargin := 0 }]
    lineItems := [] }

/-- C9 fails on the code: `update_quote_status` for a quote id that does
not exist for the owner leaves the store unchanged, but the
`ValueError("Quote not found")` raised by the read-back is swallowed by
the bare `except Exception` handler (the method lacks the
`except ValueError: raise` arm its siblings have) and surfaces as the
opaque `Exception("Failed to update quote")` — an internal error, not
`NotFound`. -/
theorem update_quote_status_missing_quote_opaque_error :
    update_quote_status 1 99 QuoteStatus.sent c9db =
      (c9db, Except.error SvcError.internalError) ∧
    (Except.error SvcError.internalError : Except SvcError QuoteView) ≠
      Except.error SvcError.notFound :=
  ⟨rfl, by simp⟩

/-- C8: for a quote owned by the caller, `delete_quote` succeeds exactly
when the status is `draft`, in which case the quote and every one of its
line items are removed in the same transition; for any other status it
fails with `InvalidState` and the store is unchanged. -/
theorem delete_quote_draft_only (userId quoteId : Nat) (db : DB) (q : QuoteRow)
    (hfind : findQuote db userId quoteId = some q) :
    (q.status = QuoteStatus.draft →
      (delete_quote userId quoteId db).2 = Except.ok true ∧
      findQuote (delete_quote userId quoteId db).1 userId quoteId = none ∧
      (delete_quote userId quoteId db).1.lineItems.filter
        (fun li => li.quoteId == quoteId) = []) ∧
    (q.status ≠ QuoteStatus.draft →
      (delete_quote userId quoteId db).2 = Except.error SvcError.invalidState ∧
      (delete_quote userId quoteId db).1 = db) := by
  have hdel : q.status = QuoteStatus.draft → delete_quote userId quoteId db =
      ({ db with
         quotes := db.quotes.filter (fun q2 => !(q2.id == quoteId && q2.userId == userId))
         lineItems := db.lineItems.filter (fun li => !(li.quoteId == quoteId)) },
       Except.ok true) := by
    intro hdraft
    unfold delete_quote
    simp only [hfind]
    rw [if_neg (by simp [hdraft])]
  constructor
  · intro hdraft
    rw [hdel hdraft]
    refine ⟨rfl, ?_, ?_⟩
    · unfold findQuote
      apply List.find?_eq_none.mpr
      intro q2 hq2
      have := (List.mem_filter.mp hq2).2
      simpa [not_or, imp_iff_not_or] using this
    · apply List.filter_eq_nil_iff.mpr
      intro li hli
      have := (List.mem_filter.mp hli).2
      simpa using this
  · intro hnd
    unfold delete_quote
    simp only [hfind]
    rw [if_pos hnd]
    exact ⟨rfl, rfl⟩

/-- Witness for C8 over `quoteDb`: deleting the draft quote (id 3)
succeeds and removes its line item; deleting the sent quote (id 4) fails
with `InvalidState` and changes nothing. -/
theorem delete_quote_draft_only_witness :
    ((delete_quote 1 3 quoteDb).2 = Except.ok true ∧
      findQuote (delete_quote 1 3 quoteDb).1 1 3 = none ∧
      (delete_quote 1 3 quoteDb).1.lineItems.filter (fun li => li.quoteId == 3) = []) ∧
    ((delete_quote 1 4 quoteDb).2 = Except.error SvcError.invalidState ∧
      (delete_quote 1 4 quoteDb).1 = quoteDb) := by
  constructor
  · exact (delete_quote_draft_only 1 3 quoteDb
      { id := 3, userId := 1, status := QuoteStatus.draft,
        totalAmount := 50, totalMargin := 5 } rfl).1 rfl
  · exact (delete_quote_draft_only 1 4 quoteDb
      { id := 4, userId := 1, status := QuoteStatus.sent,
        totalAmount := 70, totalMargin := 7 } rfl).2 (by simp)

theorem insertLineItemRows_noFault (quoteId : Nat) (ps : List ProcessedItem) :
    insertLineItemRows quoteId ps none = Except.ok (ps.map (mkLineItemRow quoteId)) := by
  induction ps with
  | nil => rfl
  | cons p ps ih => simp [insertLineItemRows, ih]

theorem processLineItems_length (uid : Nat) (db : DB) :
    ∀ (items : List LineItemRequest) (ps : List ProcessedItem),
      processLineItems uid db items = Except.ok ps → ps.length = items.length := by
  intro items
  induction items with
  | nil =>
    intro ps h
    unfold processLineItems at h
    injection h with h
    subst h
    rfl
  | cons it its ih =>
    intro ps h
    unfold processLineItems at h
    cases h1 : processLineItem uid db it with
    | error e => simp only [h1] at h; exact Except.noConfusion h
    | ok p =>
      simp only [h1] at h
      cases h2 : processLineItems uid db its with
      | error e => simp only [h2] at h; exact Except.noConfusion h
      | ok ps2 =>
        simp only [h2] at h
        injection h with h
        subst h
        simp [ih ps2 h2]

theorem get_quote_fresh (uid newId : Nat) (db : DB) (qr : QuoteRow)
    (rows : List LineItemRow) (hqid : qr.id = newId) (hqu : qr.userId = uid)
    (hfq : ∀ q ∈ db.quotes, q.id ≠ newId)
    (hfl : ∀ li ∈ db.lineItems, li.quoteId ≠ newId)
    (hrows : ∀ li ∈ rows, li.quoteId = newId) :
    get_quote uid newId
        { db with quotes := db.quotes ++ [qr], lineItems := db.lineItems ++ rows } =
      Except.ok
        { id := qr.id, userId := uid, status := qr.status,
          totalAmount := qr.totalAmount, totalMargin := qr.totalMargin,
          totalItems := rows.length, lineItems := rows } := by
  have h1 : List.find? (fun q => q.id == newId && q.userId == uid) db.quotes = none := by
    apply List.find?_eq_none.mpr
    intro q hq
    simp only [Bool.and_eq_true, beq_iff_eq, not_and]
    intro h3 _
    exact hfq q hq h3
  have h2 : List.find? (fun q => q.id == newId && q.userId == uid)
      (db.quotes ++ [qr]) = some qr := by
    rw [List.find?_append, h1]
    simp [hqid, hqu]
  have h3 : (db.lineItems ++ rows).filter (fun li => li.quoteId == newId) = rows := by
    rw [List.filter_append]
    have h4 : db.lineItems.filter (fun li => li.quoteId == newId) = [] := by
      apply List.filter_eq_nil_iff.mpr
      intro li hli
      simpa using hfl li hli
    have h5 : rows.filter (fun li => li.quoteId == newId) = rows := by
      apply List.filter_eq_self.mpr
      intro li hli
      simpa using hrows li hli
    rw [h4, h5, List.nil_append]
  unfold get_quote findQuote
  simp only [h2, h3]

/-- C5: a successful `create_quote` over N line-item requests (all brands
present and active, no storage fault, fresh storage-assigned quote id)
persists a quote whose view has exactly N line items, whose `totalAmount`
is the sum of the line items' `lineTotal` values, whose `totalMargin` is
the sum of their `marginEarned` values, and whose `totalItems` equals N. -/
theorem create_quote_totals (uid : Nat) (items : List LineItemRequest) (newId : Nat)
    (db : DB) (ps : List ProcessedItem)
    (hp : processLineItems uid db items = Except.ok ps)
    (hfq : ∀ q ∈ db.quotes, q.id ≠ newId)
    (hfl : ∀ li ∈ db.lineItems, li.quoteId ≠ newId) :
    ∃ v : QuoteView,
      (create_quote uid items newId none db).2 = Except.ok v ∧
      v.totalItems = items.length ∧
      v.lineItems.length = items.length ∧
      v.totalAmount = (v.lineItems.map LineItemRow.lineTotal).sum ∧
      v.totalMargin = (v.lineItems.map LineItemRow.marginEarned).sum := by
  have hrows : ∀ li ∈ ps.map (mkLineItemRow newId), li.quoteId = newId := by
    intro li hli
    obtain ⟨p, _, hpl⟩ := List.mem_map.mp hli
    rw [← hpl]
    rfl
  have hg := get_quote_fresh uid newId db
    { id := newId, userId := uid, status := QuoteStatus.draft,
      totalAmount := (ps.map ProcessedItem.lineTotal).sum,
      totalMargin := (ps.map ProcessedItem.marginEarned).sum }
    (ps.map (mkLineItemRow newId)) rfl rfl hfq hfl hrows
  have hlen := processLineItems_length uid db items ps hp
  have hmapT : (ps.map (mkLineItemRow newId)).map LineItemRow.lineTotal =
      ps.map ProcessedItem.lineTotal := by
    rw [List.map_map]
    rfl
  have hmapM : (ps.map (mkLineItemRow newId)).map LineItemRow.marginEarned =
      ps.map ProcessedItem.marginEarned := by
    rw [List.map_map]
    rfl
  refine ⟨{ id := newId, userId := uid, status := QuoteStatus.draft,
            totalAmount := (ps.map ProcessedItem.lineTotal).sum,
            totalMargin := (ps.map ProcessedItem.marginEarned).sum,
            totalItems := (ps.map (mkLineItemRow newId)).length,
            lineItems := ps.map (mkLineItemRow newId) }, ?_, ?_, ?_, ?_, ?_⟩
  · unfold create_quote
    simp only [hp, insertLineItemRows_noFault]
    exact hg
  · show (ps.map (mkLineItemRow newId)).length = items.length
    simpa using hlen
  · show (ps.map (mkLineItemRow newId)).length = items.length
    simpa using hlen
  · show (ps.map ProcessedItem.lineTotal).sum =
      ((ps.map (mkLineItemRow newId)).map LineItemRow.lineTotal).sum
    rw [hmapT]
  · show (ps.map ProcessedItem.marginEarned).sum =
      ((ps.map (mkLineItemRow newId)).map LineItemRow.marginEarned).sum
    rw [hmapM]

/-- Witness for C5: one line item over the example store priced at MRP. -/
theorem create_quote_totals_witness :
    (create_quote 1 [plainItem] 7 none exdb).2.map QuoteView.totalItems = Except.ok 1 ∧
    (create_quote 1 [plainItem] 7 none exdb).2.map (fun v => v.lineItems.length) =
      Except.ok 1 ∧
    (create_quote 1 [plainItem] 7 none exdb).2.map
      (fun v => decide (v.totalAmount = (v.lineItems.map LineItemRow.lineTotal).sum)) =
      Except.ok true ∧
    (create_quote 1 [plainItem] 7 none exdb).2.map
      (fun v => decide (v.totalMargin = (v.lineItems.map LineItemRow.marginEarned).sum)) =
      Except.ok true := by
  obtain ⟨v, hv, h1, h2, h3, h4⟩ := create_quote_totals 1 [plainItem] 7 exdb _ rfl
    (by simp [exdb]) (by simp [exdb])
  rw [hv]
  refine ⟨?_, ?_, ?_, ?_⟩ <;> simp [Except.map, h1, h2, h3, h4]

/-- C6 fails on the code as stated: a line-item request carrying
`margin_percentage = 0` (admitted by the request schema) is treated as if
no margin were supplied — `item.get("margin_percentage")` is falsy — so
the unit price defaults to MRP (35) instead of the claimed
costPrice × (1 + 0/100) = 30 capped at MRP. -/
theorem line_item_zero_margin_counterexample :
    (processLineItem 1 exdb zeroMarginItem).toOption.map ProcessedItem.unitPrice =
      some 35 ∧
    claimedUnitPrice 30 35 zeroMarginItem = 30 ∧
    (processLineItem 1 exdb zeroMarginItem).toOption.map ProcessedItem.unitPrice ≠
      some (claimedUnitPrice 30 35 zeroMarginItem) := by
  norm_num [processLineItem, claimedUnitPrice, findBrandActive, qTruthy, exdb, exBrand,
    zeroMarginItem, Except.toOption, min_def]

/-- C6 amended: for a line item whose brand is found active, a supplied
nonzero (per schema: positive) `unitPrice` is used verbatim as the
pre-discount unit price; else a supplied nonzero `marginPercent` gives
costPrice × (1+margin/100) capped at MRP; else (margin absent or zero) the
pre-discount price is MRP; the non-negative discount (default 0) is then
applied multiplicatively. -/
theorem processLineItem_pricing_policy (uid : Nat) (db : DB) (item : LineItemRequest)
    (b : Brand) (p : ProcessedItem)
    (hf : findBrandActive db uid item.brandId = some b)
    (hp : processLineItem uid db item = Except.ok p)
    (hd : 0 ≤ (item.discount).getD 0) :
    (∀ up : ℚ, item.unitPrice = some up → up ≠ 0 →
      p.unitPrice = up * (1 - (item.discount).getD 0 / 100)) ∧
    (qTruthy item.unitPrice = false →
      ∀ m : ℚ, item.marginPercentage = some m → m ≠ 0 →
        p.unitPrice = min (b.costPrice * (1 + m / 100)) b.mrp *
          (1 - (item.discount).getD 0 / 100)) ∧
    (qTruthy item.unitPrice = false → qTruthy item.marginPercentage = false →
      p.unitPrice = b.mrp * (1 - (item.discount).getD 0 / 100)) := by
  unfold processLineItem at hp
  simp only [hf] at hp
  injection hp with hp
  subst hp
  have key : ∀ x : ℚ,
      (if (item.discount).getD 0 > 0 then x * (1 - (item.discount).getD 0 / 100) else x) =
        x * (1 - (item.discount).getD 0 / 100) := by
    intro x
    split
    · rfl
    · next hng =>
      have h0 : (item.discount).getD 0 = 0 := le_antisymm (not_lt.mp hng) hd
      rw [h0]
      ring
  refine ⟨?_, ?_, ?_⟩
  · intro up hup hupne
    have ht : qTruthy item.unitPrice = true := by simp [qTruthy, hup, hupne]
    show (if (item.discount).getD 0 > 0 then _ else _) = _
    rw [key, ht]
    simp [hup]
  · intro ht m hm hmne
    have htm : qTruthy item.marginPercentage = true := by simp [qTruthy, hm, hmne]
    show (if (item.discount).getD 0 > 0 then _ else _) = _
    rw [key, ht, htm]
    rw [if_neg (by simp), if_pos rfl, hm]
    rfl
  · intro ht htm
    show (if (item.discount).getD 0 > 0 then _ else _) = _
    rw [key, ht, htm]
    rw [if_neg (by simp), if_neg (by simp)]

/-- Witness for C6 amended: explicit unit price 40 with a 10% discount
stores unit price 36. -/
theorem processLineItem_pricing_policy_witness :
    (processLineItem 1 exdb pricedItem).toOption.map ProcessedItem.unitPrice =
      some 36 := by
  have h := processLineItem_pricing_policy 1 exdb pricedItem exBrand _ rfl rfl
    (by norm_num [pricedItem])
  have h1 := h.1 40 rfl (by norm_num)
  have h2 : (processLineItem 1 exdb pricedItem).toOption.map ProcessedItem.unitPrice =
      some (40 * (1 - (pricedItem.discount).getD 0 / 100)) := by
    rw [← h1]
    rfl
  rw [h2]
  norm_num [pricedItem]

end Pharma
